import Mathlib

/-!
# Schedule-override resource of the PagerDuty Terraform provider

A shallow embedding of `pagerduty/resource_pagerduty_schedule_override.go`
(`resourcePagerDutyScheduleOverrideCreate`, `...Read`, `...Delete`) together with
theorems about the past-window compensation logic.

Conventions of the embedding.

* A Go function `func(d *schema.ResourceData, meta interface{}) error` becomes a
  function returning the final contents of `d` paired with the returned error
  (`none` is Go's `nil`).
* The ambient effects are made explicit arguments: the remote client, the two
  timestamp parsers, the repository helper `handleNotFoundError`, the value
  produced by `rand.Int()` and the value produced by each `time.Now()` call.
* A Go call returning `(value, error)` whose value is used even when the error is
  non-nil (the timestamp parsers) is embedded as a pair `Time × Option Error`.
-/

namespace Pagerduty

/-! ## Data model -/

/-- An instant (Go `time.Time`), as nanoseconds relative to the Unix epoch. -/
structure Time where
  nanos : Int
deriving DecidableEq, Repr

/-- Go `t.Before(u)`: the instant `t` is strictly earlier than `u`. -/
def Time.Before (t u : Time) : Bool := decide (t.nanos < u.nanos)

/-- Go `t.Equal(u)`: both values denote the same instant. -/
def Time.Equal (t u : Time) : Bool := decide (t.nanos = u.nanos)

/-- The Go zero value `time.Time{}`: January 1, year 1, 00:00:00 UTC. -/
def Time.zero : Time := ⟨-62135596800000000000⟩

/-- A Go `error` value, identified with its message. -/
abbrev Error := String

/-- The client library's `pagerduty.UserReference`. -/
structure UserReference where
  ID : String
  Type_ : String
deriving DecidableEq, Repr

/-- The client library's `pagerduty.Override`; the `User` pointer of a record is taken to be
non-nil, as in every record built by `buildScheduleOverrideStruct`. -/
structure Override where
  ID : String
  Start : String
  End : String
  User : UserReference
deriving DecidableEq, Repr

/-- The client library's `pagerduty.ListOverridesOptions`. -/
structure ListOverridesOptions where
  Since : String
  Until : String
deriving DecidableEq, Repr

/-- The part of `schema.ResourceData` the resource touches: the id (`d.Id()`, `d.SetId`) and the
four schema fields (`d.Get`, `d.Set`). -/
structure ResourceData where
  id : String
  user : String
  start : String
  end_ : String
  schedule : String
deriving DecidableEq, Repr

/-- The remote capability `client.Schedules`: the response of each call as a function of its
arguments. -/
structure Client where
  CreateOverride : String → Override → Except Error Override
  ListOverrides : String → ListOverridesOptions → Except Error (List Override)
  DeleteOverride : String → String → Option Error

/-- The collaborators that are not part of the resource file: `iso8601.ParseString`,
`time.Parse(time.RFC3339, ·)` and the repository helper `handleNotFoundError`. Each parser returns
the time value together with the error, because the callers use the time value without looking
at the error. -/
structure Env where
  ParseString : String → Time × Option Error
  ParseRFC3339 : String → Time × Option Error
  handleNotFoundError : Error → ResourceData → ResourceData × Option Error

/-- Go `strings.HasPrefix(s, pre)`. For an ASCII `pre` the byte-wise test coincides with the test
on characters. -/
def HasPrefix (s pre : String) : Bool := pre.toList.isPrefixOf s.toList

/-! ## The resource operations -/

/-- The source's `buildScheduleOverrideStruct`: the error is always `nil`. -/
def buildScheduleOverrideStruct (d : ResourceData) : Override × Option Error :=
  ({ ID := "", Start := d.start, End := d.end_, User := { ID := d.user, Type_ := "user" } }, none)

/-- The source's `resourcePagerDutyScheduleOverrideRead`; `now` is the value of its `time.Now()`. -/
def resourcePagerDutyScheduleOverrideRead (env : Env) (client : Client) (now : Time)
    (d : ResourceData) : ResourceData × Option Error :=
  let listOverridesOptions : ListOverridesOptions := { Since := d.start, Until := d.end_ }
  match client.ListOverrides d.schedule listOverridesOptions with
  | .error err => (d, some err)
  | .ok overrides =>
    let matchingOverrides := overrides.filter (fun o => o.ID == d.id)
    match matchingOverrides with
    | [m] =>
      -- len(matchingOverrides) == 1
      let d1 := { d with user := m.User.ID }
      let configStartTime := (env.ParseString d1.start).1
      let configEndTime := (env.ParseString d1.end_).1
      let apiStartTime := (env.ParseString m.Start).1
      let apiEndTime := (env.ParseString m.End).1
      if configEndTime.Before now || configStartTime.Before now then
        (d1, none)
      else
        let d2 := if !configStartTime.Equal apiStartTime then { d1 with start := m.Start } else d1
        let d3 := if !configEndTime.Equal apiEndTime then { d2 with end_ := m.End } else d2
        (d3, none)
    | _ =>
      -- len(matchingOverrides) != 1
      if HasPrefix d.id "IGNORED" then
        (d, none)
      else
        env.handleNotFoundError ("Could not find override: " ++ d.id) d

/-- The source's `resourcePagerDutyScheduleOverrideCreate`. `rand` is the value of `rand.Int()`
(a non-negative integer), `now` the value of the `time.Now()` in the failure branch and `nowRead`
the value of the `time.Now()` of the read-back. In the failure branch the source declares a new
`err` with `:=`, so the `err` returned at the end of that branch is the error of the second
`iso8601.ParseString` call, not the error of `CreateOverride`. -/
def resourcePagerDutyScheduleOverrideCreate (env : Env) (client : Client) (rand : Nat)
    (now nowRead : Time) (d : ResourceData) : ResourceData × Option Error :=
  match buildScheduleOverrideStruct d with
  | (_, some err) => (d, some err)
  | (override, none) =>
    match client.CreateOverride d.schedule override with
    | .error _ =>
      let configStartTime := (env.ParseString d.start).1
      let (configEndTime, err) := env.ParseString d.end_
      if configEndTime.Before now || configStartTime.Before now then
        let d1 := { d with id := "IGNORED_" ++ toString rand }
        resourcePagerDutyScheduleOverrideRead env client nowRead d1
      else
        (d, err)
    | .ok newOverride =>
      resourcePagerDutyScheduleOverrideRead env client nowRead { d with id := newOverride.ID }

/-- The source's `resourcePagerDutyScheduleOverrideDelete`; `now` is the value of its
`time.Now()`. -/
def resourcePagerDutyScheduleOverrideDelete (env : Env) (client : Client) (now : Time)
    (d : ResourceData) : ResourceData × Option Error :=
  match client.DeleteOverride d.schedule d.id with
  | some err =>
    let end_ := (env.ParseRFC3339 d.end_).1
    if end_.Before now then
      ({ d with id := "" }, none)
    else
      (d, some err)
  | none => ({ d with id := "" }, none)

/-! ## A reference instance of the timestamp parsers

The parsers are external libraries. For concrete evaluations we fix a reference instance of each.
Both read the UTC layout `YYYY-MM-DDTHH:MM:SS[.fraction]Z`, on which `iso8601.ParseString` and
`time.Parse(time.RFC3339, ·)` agree. The reference for `iso8601.ParseString` also reads the
date-only layout `YYYY-MM-DD` (midnight UTC), which ISO 8601 allows and the RFC 3339 layout of
`time.Parse` rejects. On any other input they return the zero time together with an error, as both
libraries do on a string that is no timestamp at all. They are only ever evaluated on strings of
these two layouts and on strings that are not timestamps. -/

/-- Reads exactly `k` decimal digits. -/
def takeNum (k : Nat) (cs : List Char) : Option (Nat × List Char) :=
  let ds := cs.take k
  if ds.length = k ∧ ds.all Char.isDigit = true then
    some (ds.foldl (fun a c => 10 * a + (c.toNat - 48)) 0, cs.drop k)
  else none

/-- Reads the single character `c`. -/
def expect (c : Char) : List Char → Option (List Char)
  | x :: xs => if x = c then some xs else none
  | [] => none

/-- Whether `y` is a leap year of the proleptic Gregorian calendar. -/
def isLeap (y : Nat) : Bool := (y % 4 == 0 && y % 100 != 0) || y % 400 == 0

/-- Number of days of month `m` of year `y`. -/
def daysIn (y m : Nat) : Nat :=
  if m = 2 then (if isLeap y then 29 else 28)
  else if m = 4 ∨ m = 6 ∨ m = 9 ∨ m = 11 then 30 else 31

/-- Days from 1970-01-01 to the civil date `y-m-d` (proleptic Gregorian calendar). -/
def daysFromCivil (y m d : Nat) : Int :=
  let y1 : Int := if m ≤ 2 then (y : Int) - 1 else y
  let era : Int := y1 / 400
  let yoe : Int := y1 - era * 400
  let mp : Int := if m > 2 then (m : Int) - 3 else (m : Int) + 9
  let doy : Int := (153 * mp + 2) / 5 + d - 1
  let doe : Int := yoe * 365 + yoe / 4 - yoe / 100 + doy
  era * 146097 + doe - 719468

/-- The optional fraction and the closing `Z`: returns the nanoseconds of the fraction. -/
def takeFractionZ (cs : List Char) : Option Nat :=
  if cs = ['Z'] then some 0
  else
    match expect '.' cs with
    | none => none
    | some rest =>
      let ds := rest.takeWhile Char.isDigit
      if 1 ≤ ds.length ∧ ds.length ≤ 9 ∧ rest.dropWhile Char.isDigit = ['Z'] then
        some (ds.foldl (fun a c => 10 * a + (c.toNat - 48)) 0 * 10 ^ (9 - ds.length))
      else none

/-- The instant of a civil date and time of day in UTC, when every component is in range. -/
def civilToTime (y mo dd h mi sec ns : Nat) : Option Time :=
  if 1 ≤ mo ∧ mo ≤ 12 ∧ 1 ≤ dd ∧ dd ≤ daysIn y mo ∧ h < 24 ∧ mi < 60 ∧ sec < 60 then
    let secOfDay : Nat := h * 3600 + mi * 60 + sec
    let secs : Int := daysFromCivil y mo dd * 86400 + Int.ofNat secOfDay
    some ⟨secs * 1000000000 + Int.ofNat ns⟩
  else none

/-- The instant denoted by a string of the layout `YYYY-MM-DDTHH:MM:SS[.fraction]Z`. -/
def parseUTC (s : String) : Option Time :=
  (takeNum 4 s.toList).bind fun (y, r) =>
  (expect '-' r).bind fun r =>
  (takeNum 2 r).bind fun (mo, r) =>
  (expect '-' r).bind fun r =>
  (takeNum 2 r).bind fun (dd, r) =>
  (expect 'T' r).bind fun r =>
  (takeNum 2 r).bind fun (h, r) =>
  (expect ':' r).bind fun r =>
  (takeNum 2 r).bind fun (mi, r) =>
  (expect ':' r).bind fun r =>
  (takeNum 2 r).bind fun (sec, r) =>
  (takeFractionZ r).bind fun ns =>
  civilToTime y mo dd h mi sec ns

/-- The instant denoted by a string of the date-only layout `YYYY-MM-DD`: midnight UTC. -/
def parseDateOnly (s : String) : Option Time :=
  (takeNum 4 s.toList).bind fun (y, r) =>
  (expect '-' r).bind fun r =>
  (takeNum 2 r).bind fun (mo, r) =>
  (expect '-' r).bind fun r =>
  (takeNum 2 r).bind fun (dd, r) =>
  if r = [] then civilToTime y mo dd 0 0 0 0 else none

/-- The reference for `time.Parse(time.RFC3339, ·)`: the parsed instant, or the zero time and an
error. -/
def refParseRFC3339 (s : String) : Time × Option Error :=
  match parseUTC s with
  | some t => (t, none)
  | none => (Time.zero, some ("cannot parse " ++ s))

/-- The reference for `iso8601.ParseString`: the parsed instant of a full timestamp or of a date,
or the zero time and an error. -/
def refParseString (s : String) : Time × Option Error :=
  match parseUTC s with
  | some t => (t, none)
  | none =>
    match parseDateOnly s with
    | some t => (t, none)
    | none => (Time.zero, some ("cannot parse " ++ s))

/-- The reference collaborators: `refParseString` for `iso8601.ParseString` and `refParseRFC3339`
for `time.Parse(time.RFC3339, ·)`. -/
def refEnv (handle : Error → ResourceData → ResourceData × Option Error) : Env :=
  { ParseString := refParseString, ParseRFC3339 := refParseRFC3339, handleNotFoundError := handle }

/-- Modelled from the spec: the repository helper `handleNotFoundError` is not part of the resource
file; the spec describes the not-found handling as dropping the resource from the tracked state
without treating the condition as fatal. -/
def dropFromState (_ : Error) (d : ResourceData) : ResourceData × Option Error :=
  ({ d with id := "" }, none)

/-- A client whose three calls answer with fixed responses. -/
def fixedClient (create : Except Error Override) (list : Except Error (List Override))
    (delete : Option Error) : Client :=
  { CreateOverride := fun _ _ => create
    ListOverrides := fun _ _ => list
    DeleteOverride := fun _ _ => delete }

/-- The instant 2026-11-04T00:00:00Z, used as the current time of the concrete evaluations. -/
def nowRef : Time := ⟨1793750400000000000⟩

/-- A resource with the given id and window, for user `PUSER1` on schedule `PSCHED1`. -/
def mkResource (id start end_ : String) : ResourceData :=
  { id := id, user := "PUSER1", start := start, end_ := end_, schedule := "PSCHED1" }

/-- A remote record with the given id and window, assigned to user `PUSER2`. -/
def mkRecord (id start end_ : String) : Override :=
  { ID := id, Start := start, End := end_, User := { ID := "PUSER2", Type_ := "user_reference" } }

/-! ## Auxiliary facts -/

theorem digitChar_isDigit : ∀ n, n < 10 → (Nat.digitChar n).isDigit = true := by
  decide

theorem toDigitsCore_isDigit (fuel : Nat) :
    ∀ (n : Nat) (ds : List Char), (∀ c ∈ ds, c.isDigit = true) →
      ∀ c ∈ Nat.toDigitsCore 10 fuel n ds, c.isDigit = true := by
  induction fuel with
  | zero => intro n ds h; simpa [Nat.toDigitsCore] using h
  | succ fuel ih =>
    intro n ds h
    have hd : (Nat.digitChar (n % 10)).isDigit = true :=
      digitChar_isDigit _ (Nat.mod_lt _ (by decide))
    have hcons : ∀ c ∈ Nat.digitChar (n % 10) :: ds, c.isDigit = true := by
      intro c hc
      rcases List.mem_cons.mp hc with rfl | hc
      · exact hd
      · exact h c hc
    unfold Nat.toDigitsCore
    by_cases h0 : n / 10 = 0
    · simpa [h0] using hcons
    · simpa [h0] using ih (n / 10) _ hcons

theorem toDigitsCore_ne_nil (fuel : Nat) :
    ∀ (n : Nat) (ds : List Char), ds ≠ [] → Nat.toDigitsCore 10 fuel n ds ≠ [] := by
  induction fuel with
  | zero => intro n ds h; simpa [Nat.toDigitsCore] using h
  | succ fuel ih =>
    intro n ds _
    unfold Nat.toDigitsCore
    by_cases h0 : n / 10 = 0
    · simp [h0]
    · simpa [h0] using ih (n / 10) (Nat.digitChar (n % 10) :: ds) (List.cons_ne_nil _ _)

theorem toDigits_ne_nil (n : Nat) : Nat.toDigits 10 n ≠ [] := by
  unfold Nat.toDigits Nat.toDigitsCore
  by_cases h0 : n / 10 = 0
  · simp [h0]
  · simpa [h0] using toDigitsCore_ne_nil n (n / 10) [Nat.digitChar (n % 10)] (List.cons_ne_nil _ _)

theorem toDigits_isDigit (n : Nat) : ∀ c ∈ Nat.toDigits 10 n, c.isDigit = true :=
  toDigitsCore_isDigit (n + 1) n [] (by simp)

theorem toString_eq_digits (n : Nat) : toString n = String.mk (Nat.toDigits 10 n) := rfl

/-- Every id that starts with `IGNORED_` passes the check `strings.HasPrefix(id, "IGNORED")`. -/
theorem hasPrefix_sentinel (rest : String) : HasPrefix ("IGNORED_" ++ rest) "IGNORED" = true := by
  simp [HasPrefix, String.toList, String.data_append, List.isPrefixOf]

/-- Read on a response with exactly one record carrying the stored id. -/
theorem read_single (env : Env) (client : Client) (now : Time) (d : ResourceData)
    (ovs : List Override) (m : Override)
    (hlist : client.ListOverrides d.schedule { Since := d.start, Until := d.end_ } = .ok ovs)
    (hone : ovs.filter (fun o => o.ID == d.id) = [m]) :
    resourcePagerDutyScheduleOverrideRead env client now d =
      if ((env.ParseString d.end_).1.Before now || (env.ParseString d.start).1.Before now) = true
      then ({ d with user := m.User.ID }, none)
      else
        ({ id := d.id, user := m.User.ID,
           start := if (env.ParseString d.start).1.Equal (env.ParseString m.Start).1 = true
                    then d.start else m.Start,
           end_ := if (env.ParseString d.end_).1.Equal (env.ParseString m.End).1 = true
                   then d.end_ else m.End,
           schedule := d.schedule }, none) := by
  simp only [resourcePagerDutyScheduleOverrideRead, hlist, hone]
  split
  · rfl
  · cases h1 : (env.ParseString d.start).1.Equal (env.ParseString m.Start).1 <;>
      cases h2 : (env.ParseString d.end_).1.Equal (env.ParseString m.End).1 <;> simp

/-- Read on a response in which the stored id does not occur exactly once. -/
theorem read_not_single (env : Env) (client : Client) (now : Time) (d : ResourceData)
    (ovs : List Override)
    (hlist : client.ListOverrides d.schedule { Since := d.start, Until := d.end_ } = .ok ovs)
    (hcount : (ovs.filter (fun o => o.ID == d.id)).length ≠ 1) :
    resourcePagerDutyScheduleOverrideRead env client now d =
      if HasPrefix d.id "IGNORED" = true then (d, none)
      else env.handleNotFoundError ("Could not find override: " ++ d.id) d := by
  simp only [resourcePagerDutyScheduleOverrideRead, hlist]
  split
  · rename_i m hm
    rw [hm] at hcount
    exact absurd rfl hcount
  · rfl

/-- Read on a failing `ListOverrides` call returns that error and changes nothing. -/
theorem read_list_error (env : Env) (client : Client) (now : Time) (d : ResourceData)
    (err : Error)
    (hlist : client.ListOverrides d.schedule { Since := d.start, Until := d.end_ } = .error err) :
    resourcePagerDutyScheduleOverrideRead env client now d = (d, some err) := by
  simp only [resourcePagerDutyScheduleOverrideRead, hlist]

/-- Read never changes an id that passes the sentinel check, and with a successful list call it
returns no error on such an id. -/
theorem read_sentinel (env : Env) (client : Client) (now : Time) (d : ResourceData)
    (hid : HasPrefix d.id "IGNORED" = true) :
    (resourcePagerDutyScheduleOverrideRead env client now d).1.id = d.id ∧
    (∀ ovs, client.ListOverrides d.schedule { Since := d.start, Until := d.end_ } = .ok ovs →
      (resourcePagerDutyScheduleOverrideRead env client now d).2 = none) := by
  cases hlist : client.ListOverrides d.schedule { Since := d.start, Until := d.end_ } with
  | error err =>
    refine ⟨?_, ?_⟩
    · simp [resourcePagerDutyScheduleOverrideRead, hlist]
    · intro ovs h; cases h
  | ok ovs =>
    by_cases hone : (ovs.filter (fun o => o.ID == d.id)).length = 1
    · obtain ⟨m, hm⟩ := List.length_eq_one.mp hone
      rw [read_single env client now d ovs m hlist hm]
      refine ⟨?_, ?_⟩
      · split <;> rfl
      · intro _ _; split <;> rfl
    · rw [read_not_single env client now d ovs hlist hone, if_pos hid]
      exact ⟨rfl, fun _ _ => rfl⟩

/-- Create after a failed `CreateOverride`: the sentinel branch. -/
theorem create_failed_past (env : Env) (client : Client) (rand : Nat) (now nowRead : Time)
    (d : ResourceData) (e : Error)
    (hcreate : client.CreateOverride d.schedule (buildScheduleOverrideStruct d).1 = .error e)
    (hpast : ((env.ParseString d.end_).1.Before now || (env.ParseString d.start).1.Before now)
      = true) :
    resourcePagerDutyScheduleOverrideCreate env client rand now nowRead d =
      resourcePagerDutyScheduleOverrideRead env client nowRead
        { d with id := "IGNORED_" ++ toString rand } := by
  simp only [buildScheduleOverrideStruct] at hcreate
  simp only [resourcePagerDutyScheduleOverrideCreate, buildScheduleOverrideStruct, hcreate]
  rw [if_pos hpast]

/-- Create after a failed `CreateOverride`: the branch that returns the shadowing `err`. -/
theorem create_failed_not_past (env : Env) (client : Client) (rand : Nat) (now nowRead : Time)
    (d : ResourceData) (e : Error)
    (hcreate : client.CreateOverride d.schedule (buildScheduleOverrideStruct d).1 = .error e)
    (hpast : ((env.ParseString d.end_).1.Before now || (env.ParseString d.start).1.Before now)
      = false) :
    resourcePagerDutyScheduleOverrideCreate env client rand now nowRead d =
      (d, (env.ParseString d.end_).2) := by
  simp only [buildScheduleOverrideStruct] at hcreate
  simp only [resourcePagerDutyScheduleOverrideCreate, buildScheduleOverrideStruct, hcreate]
  rw [if_neg (by simp [hpast])]

/-! ## Create -/

/-- C1, evaluated at the failing input: `start` and `end` lie in the year 2999, both parse and both
are after the current time, and `CreateOverride` fails with "invalid user". Create leaves the id
unset but returns no error: the remote error is lost, because the `err` it returns is the error
of parsing `end`. -/
theorem create_future_window_loses_remote_error :
    (refParseString "2999-01-01T00:00:00Z").2 = none ∧
    (refParseString "2999-01-02T00:00:00Z").2 = none ∧
    nowRef.Before (refParseString "2999-01-01T00:00:00Z").1 = true ∧
    nowRef.Before (refParseString "2999-01-02T00:00:00Z").1 = true ∧
    resourcePagerDutyScheduleOverrideCreate (refEnv dropFromState)
        (fixedClient (.error "invalid user") (.ok []) none) 42 nowRef nowRef
        (mkResource "" "2999-01-01T00:00:00Z" "2999-01-02T00:00:00Z") =
      (mkResource "" "2999-01-01T00:00:00Z" "2999-01-02T00:00:00Z", none) := by
  decide

/-- C2 as stated fails: `start` and `end` lie in the year 2000, before the current time, and
`CreateOverride` fails; the `ListOverrides` call of the read-back fails too, and create returns
that error. -/
theorem create_past_window_list_error :
    (refParseString "2000-01-01T00:00:00Z").1.Before nowRef = true ∧
    (refParseString "2000-01-02T00:00:00Z").1.Before nowRef = true ∧
    (resourcePagerDutyScheduleOverrideCreate (refEnv dropFromState)
        (fixedClient (.error "invalid user") (.error "service unavailable") none) 42 nowRef nowRef
        (mkResource "" "2000-01-01T00:00:00Z" "2000-01-02T00:00:00Z")).2 =
      some "service unavailable" := by
  decide

/-- C2 as amended: when `start` and `end` are both before the current time and `CreateOverride`
fails, the result of create follows the `ListOverrides` call of the read-back: create returns no
error when that call succeeds, and returns the error of that call when it fails. -/
theorem create_past_window_follows_list (env : Env) (client : Client) (rand : Nat)
    (now nowRead : Time) (d : ResourceData) (e : Error)
    (hcreate : client.CreateOverride d.schedule (buildScheduleOverrideStruct d).1 = .error e)
    (hstart : (env.ParseString d.start).1.Before now = true)
    (hend : (env.ParseString d.end_).1.Before now = true) :
    (∀ ovs, client.ListOverrides d.schedule { Since := d.start, Until := d.end_ } = .ok ovs →
      (resourcePagerDutyScheduleOverrideCreate env client rand now nowRead d).2 = none) ∧
    (∀ err, client.ListOverrides d.schedule { Since := d.start, Until := d.end_ } = .error err →
      (resourcePagerDutyScheduleOverrideCreate env client rand now nowRead d).2 = some err) := by
  rw [create_failed_past env client rand now nowRead d e hcreate (by simp [hstart, hend])]
  constructor
  · intro ovs hlist
    exact (read_sentinel env client nowRead { d with id := "IGNORED_" ++ toString rand }
      (hasPrefix_sentinel _)).2 ovs hlist
  · intro err hlist
    rw [read_list_error env client nowRead { d with id := "IGNORED_" ++ toString rand } err hlist]

/-- Instance of the amended C2: window in the year 2000 and a failing create, once with an empty
list response and once with a failing list call. -/
theorem create_past_window_follows_list_witness :
    (resourcePagerDutyScheduleOverrideCreate (refEnv dropFromState)
        (fixedClient (.error "invalid user") (.ok []) none) 42 nowRef nowRef
        (mkResource "" "2000-01-01T00:00:00Z" "2000-01-02T00:00:00Z")).2 = none ∧
    (resourcePagerDutyScheduleOverrideCreate (refEnv dropFromState)
        (fixedClient (.error "invalid user") (.error "rate limited") none) 42 nowRef nowRef
        (mkResource "" "2000-01-01T00:00:00Z" "2000-01-02T00:00:00Z")).2 = some "rate limited" :=
  ⟨(create_past_window_follows_list (refEnv dropFromState)
      (fixedClient (.error "invalid user") (.ok []) none) 42 nowRef nowRef
      (mkResource "" "2000-01-01T00:00:00Z" "2000-01-02T00:00:00Z") "invalid user"
      rfl (by decide) (by decide)).1 [] rfl,
   (create_past_window_follows_list (refEnv dropFromState)
      (fixedClient (.error "invalid user") (.error "rate limited") none) 42 nowRef nowRef
      (mkResource "" "2000-01-01T00:00:00Z" "2000-01-02T00:00:00Z") "invalid user"
      rfl (by decide) (by decide)).2 "rate limited" rfl⟩

/-- C3: when `CreateOverride` fails and `start` or `end` is before the current time, the id that
create leaves on the resource is `IGNORED_` followed by the decimal digits of the non-negative
integer drawn from `rand.Int()` (a non-empty run of digit characters), that id passes the prefix
check of read, and so does every id of the form `IGNORED_` followed by digits. -/
theorem create_sentinel_id_format (env : Env) (client : Client) (rand : Nat)
    (now nowRead : Time) (d : ResourceData) (e : Error)
    (hcreate : client.CreateOverride d.schedule (buildScheduleOverrideStruct d).1 = .error e)
    (hpast : (env.ParseString d.start).1.Before now = true ∨
      (env.ParseString d.end_).1.Before now = true) :
    (∃ digits : List Char, digits ≠ [] ∧ (∀ c ∈ digits, c.isDigit = true) ∧
      toString rand = String.mk digits ∧
      (resourcePagerDutyScheduleOverrideCreate env client rand now nowRead d).1.id =
        "IGNORED_" ++ String.mk digits) ∧
    HasPrefix (resourcePagerDutyScheduleOverrideCreate env client rand now nowRead d).1.id
      "IGNORED" = true ∧
    (∀ digits : List Char, HasPrefix ("IGNORED_" ++ String.mk digits) "IGNORED" = true) := by
  have hp : ((env.ParseString d.end_).1.Before now || (env.ParseString d.start).1.Before now)
      = true := by
    rcases hpast with h | h <;> simp [h]
  have hid : (resourcePagerDutyScheduleOverrideCreate env client rand now nowRead d).1.id =
      "IGNORED_" ++ toString rand := by
    rw [create_failed_past env client rand now nowRead d e hcreate hp]
    exact (read_sentinel env client nowRead { d with id := "IGNORED_" ++ toString rand }
      (hasPrefix_sentinel _)).1
  refine ⟨⟨Nat.toDigits 10 rand, toDigits_ne_nil rand, toDigits_isDigit rand,
    toString_eq_digits rand, ?_⟩, ?_, fun digits => hasPrefix_sentinel _⟩
  · rw [hid, toString_eq_digits]
  · rw [hid]; exact hasPrefix_sentinel _

/-- Instance of C3: `start` in the year 2000, failing create, `rand.Int()` yielding 42. -/
theorem create_sentinel_id_format_witness :
    (resourcePagerDutyScheduleOverrideCreate (refEnv dropFromState)
        (fixedClient (.error "invalid user") (.ok []) none) 42 nowRef nowRef
        (mkResource "" "2000-01-01T00:00:00Z" "2999-01-02T00:00:00Z")).1.id = "IGNORED_42" ∧
    ((∃ digits : List Char, digits ≠ [] ∧ (∀ c ∈ digits, c.isDigit = true) ∧
      toString 42 = String.mk digits ∧
      (resourcePagerDutyScheduleOverrideCreate (refEnv dropFromState)
        (fixedClient (.error "invalid user") (.ok []) none) 42 nowRef nowRef
        (mkResource "" "2000-01-01T00:00:00Z" "2999-01-02T00:00:00Z")).1.id =
        "IGNORED_" ++ String.mk digits) ∧
    HasPrefix (resourcePagerDutyScheduleOverrideCreate (refEnv dropFromState)
        (fixedClient (.error "invalid user") (.ok []) none) 42 nowRef nowRef
        (mkResource "" "2000-01-01T00:00:00Z" "2999-01-02T00:00:00Z")).1.id "IGNORED" = true ∧
    (∀ digits : List Char, HasPrefix ("IGNORED_" ++ String.mk digits) "IGNORED" = true)) :=
  ⟨by decide,
   create_sentinel_id_format (refEnv dropFromState)
    (fixedClient (.error "invalid user") (.ok []) none) 42 nowRef nowRef
    (mkResource "" "2000-01-01T00:00:00Z" "2999-01-02T00:00:00Z") "invalid user"
    rfl (Or.inl (by decide))⟩

/-- C4, evaluated at the failing input: `start` is no timestamp, `end` lies in the year 2999 and
`CreateOverride` fails with "invalid user". The parser hands back the zero time for `start`,
which is before the current time, so create sets the sentinel id and returns no error instead of
returning the remote error. -/
theorem create_unparsable_start_sets_sentinel :
    (refParseString "tomorrow morning").2 ≠ none ∧
    resourcePagerDutyScheduleOverrideCreate (refEnv dropFromState)
        (fixedClient (.error "invalid user") (.ok []) none) 42 nowRef nowRef
        (mkResource "" "tomorrow morning" "2999-01-02T00:00:00Z") =
      (mkResource "IGNORED_42" "tomorrow morning" "2999-01-02T00:00:00Z", none) := by
  decide

/-! ## Delete -/

/-- C5: when `DeleteOverride` fails and the `end` field is an instant before the current time,
delete returns no error and sets the id to the empty string (no other field changes). -/
theorem delete_past_end_clears_id (env : Env) (client : Client) (now : Time)
    (d : ResourceData) (e : Error)
    (hdelete : client.DeleteOverride d.schedule d.id = some e)
    (hend : (env.ParseRFC3339 d.end_).1.Before now = true) :
    resourcePagerDutyScheduleOverrideDelete env client now d = ({ d with id := "" }, none) := by
  simp [resourcePagerDutyScheduleOverrideDelete, hdelete, hend]

/-- Instance of C5: `end` in 1999, failing delete. -/
theorem delete_past_end_clears_id_witness :
    (refParseRFC3339 "1999-06-01T00:00:00Z").2 = none ∧
    resourcePagerDutyScheduleOverrideDelete (refEnv dropFromState)
        (fixedClient (.error "unused") (.ok []) (some "override not found")) nowRef
        (mkResource "PO1" "1999-05-01T00:00:00Z" "1999-06-01T00:00:00Z") =
      (mkResource "" "1999-05-01T00:00:00Z" "1999-06-01T00:00:00Z", none) :=
  ⟨by decide,
   delete_past_end_clears_id (refEnv dropFromState)
    (fixedClient (.error "unused") (.ok []) (some "override not found")) nowRef
    (mkResource "PO1" "1999-05-01T00:00:00Z" "1999-06-01T00:00:00Z") "override not found"
    rfl (by decide)⟩

/-- C6, evaluated at two failing inputs, `DeleteOverride` failing with "override not found" in
both. First `end = "2999-01-02"`: a date after the current time, read as such by
`iso8601.ParseString` in create and read, but rejected by the RFC 3339 layout of delete. Second
`end = "next tuesday"`, which is no timestamp. In both cases the discarded parse error leaves the
zero time, which is before the current time, so delete clears the id and returns no error
instead of returning the remote error, although the override is not in the past. -/
theorem delete_unparsable_end_clears_id :
    (refParseString "2999-01-02").2 = none ∧
    nowRef.Before (refParseString "2999-01-02").1 = true ∧
    (refParseRFC3339 "2999-01-02").2 ≠ none ∧
    resourcePagerDutyScheduleOverrideDelete (refEnv dropFromState)
        (fixedClient (.error "unused") (.ok []) (some "override not found")) nowRef
        (mkResource "PO1" "2999-01-01" "2999-01-02") =
      (mkResource "" "2999-01-01" "2999-01-02", none) ∧
    (refParseRFC3339 "next tuesday").2 ≠ none ∧
    resourcePagerDutyScheduleOverrideDelete (refEnv dropFromState)
        (fixedClient (.error "unused") (.ok []) (some "override not found")) nowRef
        (mkResource "PO1" "2999-01-01T00:00:00Z" "next tuesday") =
      (mkResource "" "2999-01-01T00:00:00Z" "next tuesday", none) := by
  decide

/-- Delete with a failing `DeleteOverride` and a time value of the `end` field that is not before
the current time returns the remote error and changes nothing. -/
theorem delete_live_end_returns_error (env : Env) (client : Client) (now : Time)
    (d : ResourceData) (e : Error)
    (hdelete : client.DeleteOverride d.schedule d.id = some e)
    (hend : (env.ParseRFC3339 d.end_).1.Before now = false) :
    resourcePagerDutyScheduleOverrideDelete env client now d = (d, some e) := by
  simp [resourcePagerDutyScheduleOverrideDelete, hdelete, hend]

/-! ## Read -/

/-- C7: on a successful `ListOverrides` response in which the stored id does not occur exactly
once, read returns success and changes no field when the stored id carries the sentinel marker,
and otherwise returns exactly what `handleNotFoundError` returns on the error
"Could not find override: <id>" (never a success of its own). -/
theorem read_no_single_match (env : Env) (client : Client) (now : Time) (d : ResourceData)
    (ovs : List Override)
    (hlist : client.ListOverrides d.schedule { Since := d.start, Until := d.end_ } = .ok ovs)
    (hcount : (ovs.filter (fun o => o.ID == d.id)).length ≠ 1) :
    (HasPrefix d.id "IGNORED" = true →
      resourcePagerDutyScheduleOverrideRead env client now d = (d, none)) ∧
    (HasPrefix d.id "IGNORED" = false →
      resourcePagerDutyScheduleOverrideRead env client now d =
        env.handleNotFoundError ("Could not find override: " ++ d.id) d) := by
  rw [read_not_single env client now d ovs hlist hcount]
  constructor
  · intro h; rw [if_pos h]
  · intro h; rw [if_neg (by simp [h])]

/-- Instance of C7: two records carry the stored id `PO1`, which has no sentinel marker. -/
theorem read_no_single_match_witness :
    ([mkRecord "PO1" "2030-01-01T10:00:00Z" "2030-01-02T10:00:00Z",
      mkRecord "PO1" "2030-01-01T10:00:00Z" "2030-01-02T10:00:00Z"].filter
        (fun o => o.ID == "PO1")).length ≠ 1 ∧
    HasPrefix "PO1" "IGNORED" = false ∧
    resourcePagerDutyScheduleOverrideRead (refEnv dropFromState)
        (fixedClient (.error "unused") (.ok
          [mkRecord "PO1" "2030-01-01T10:00:00Z" "2030-01-02T10:00:00Z",
           mkRecord "PO1" "2030-01-01T10:00:00Z" "2030-01-02T10:00:00Z"]) none) nowRef
        (mkResource "PO1" "2030-01-01T10:00:00Z" "2030-01-02T10:00:00Z") =
      dropFromState "Could not find override: PO1"
        (mkResource "PO1" "2030-01-01T10:00:00Z" "2030-01-02T10:00:00Z") :=
  ⟨by decide, by decide,
   (read_no_single_match (refEnv dropFromState)
    (fixedClient (.error "unused") (.ok
      [mkRecord "PO1" "2030-01-01T10:00:00Z" "2030-01-02T10:00:00Z",
       mkRecord "PO1" "2030-01-01T10:00:00Z" "2030-01-02T10:00:00Z"]) none) nowRef
    (mkResource "PO1" "2030-01-01T10:00:00Z" "2030-01-02T10:00:00Z")
    [mkRecord "PO1" "2030-01-01T10:00:00Z" "2030-01-02T10:00:00Z",
     mkRecord "PO1" "2030-01-01T10:00:00Z" "2030-01-02T10:00:00Z"] rfl (by decide)).2
    (by decide)⟩

/-- C8 as stated fails: the local `start` is before the current time and the local `end` after
it, so the local window is not entirely in the past, and the single matching record has a
different `start` instant; read nevertheless leaves the local `start` in place. -/
theorem read_partly_past_window_keeps_start :
    [mkRecord "PO1" "2020-06-01T00:00:00Z" "2030-01-01T00:00:00Z"].filter
        (fun o => o.ID == "PO1") =
      [mkRecord "PO1" "2020-06-01T00:00:00Z" "2030-01-01T00:00:00Z"] ∧
    (refParseString "2020-01-01T00:00:00Z").1.Equal (refParseString "2020-06-01T00:00:00Z").1 = false ∧
    ¬ ((refParseString "2020-01-01T00:00:00Z").1.Before nowRef = true ∧
       (refParseString "2030-01-01T00:00:00Z").1.Before nowRef = true) ∧
    resourcePagerDutyScheduleOverrideRead (refEnv dropFromState)
        (fixedClient (.error "unused")
          (.ok [mkRecord "PO1" "2020-06-01T00:00:00Z" "2030-01-01T00:00:00Z"]) none) nowRef
        (mkResource "PO1" "2020-01-01T00:00:00Z" "2030-01-01T00:00:00Z") =
      ({ mkResource "PO1" "2020-01-01T00:00:00Z" "2030-01-01T00:00:00Z" with user := "PUSER2" },
        none) := by
  decide

/-- C8 as amended: on a successful `ListOverrides` response with exactly one record `r` carrying
the stored id, read returns success, sets `user` to the user id of `r`, and overwrites `start`
(respectively `end`) with the raw string of `r` exactly when the parsed local time differs from
the parsed remote time and neither the local `start` nor the local `end` is before the current
time; otherwise the field is left unchanged. The id and the schedule are never changed. -/
theorem read_single_match_fields (env : Env) (client : Client) (now : Time) (d : ResourceData)
    (ovs : List Override) (r : Override)
    (hlist : client.ListOverrides d.schedule { Since := d.start, Until := d.end_ } = .ok ovs)
    (hone : ovs.filter (fun o => o.ID == d.id) = [r]) :
    resourcePagerDutyScheduleOverrideRead env client now d =
      ({ id := d.id,
         user := r.User.ID,
         start :=
           if (env.ParseString d.start).1.Equal (env.ParseString r.Start).1 = false ∧
              (env.ParseString d.start).1.Before now = false ∧
              (env.ParseString d.end_).1.Before now = false
           then r.Start else d.start,
         end_ :=
           if (env.ParseString d.end_).1.Equal (env.ParseString r.End).1 = false ∧
              (env.ParseString d.start).1.Before now = false ∧
              (env.ParseString d.end_).1.Before now = false
           then r.End else d.end_,
         schedule := d.schedule }, none) := by
  rw [read_single env client now d ovs r hlist hone]
  cases (env.ParseString d.start).1.Before now <;>
    cases (env.ParseString d.end_).1.Before now <;>
    cases (env.ParseString d.start).1.Equal (env.ParseString r.Start).1 <;>
    cases (env.ParseString d.end_).1.Equal (env.ParseString r.End).1 <;> simp

/-- Instance of the amended C8: future window, `start` differs from the record, `end` is the same
instant in another representation. -/
theorem read_single_match_fields_witness :
    [mkRecord "PO1" "2030-03-01T00:00:00Z" "2030-04-01T00:00:00Z"].filter
        (fun o => o.ID == "PO1") =
      [mkRecord "PO1" "2030-03-01T00:00:00Z" "2030-04-01T00:00:00Z"] ∧
    resourcePagerDutyScheduleOverrideRead (refEnv dropFromState)
        (fixedClient (.error "unused")
          (.ok [mkRecord "PO1" "2030-03-01T00:00:00Z" "2030-04-01T00:00:00Z"]) none) nowRef
        (mkResource "PO1" "2030-01-01T00:00:00Z" "2030-04-01T00:00:00.000Z") =
      ({ id := "PO1", user := "PUSER2", start := "2030-03-01T00:00:00Z",
         end_ := "2030-04-01T00:00:00.000Z", schedule := "PSCHED1" }, none) :=
  ⟨by decide,
   (read_single_match_fields (refEnv dropFromState)
    (fixedClient (.error "unused")
      (.ok [mkRecord "PO1" "2030-03-01T00:00:00Z" "2030-04-01T00:00:00Z"]) none) nowRef
    (mkResource "PO1" "2030-01-01T00:00:00Z" "2030-04-01T00:00:00.000Z")
    [mkRecord "PO1" "2030-03-01T00:00:00Z" "2030-04-01T00:00:00Z"]
    (mkRecord "PO1" "2030-03-01T00:00:00Z" "2030-04-01T00:00:00Z") rfl
    (by decide)).trans (by decide)⟩

/-- C9 as stated fails: the local window is in the future, the stored `start` is
"2030-01-01T10:00:00Z" and the single matching record has "2030-01-01T10:00:00.000Z", the same
instant in another representation; read keeps the local string. -/
theorem read_same_instant_keeps_local_string :
    "2030-01-01T10:00:00Z" ≠ "2030-01-01T10:00:00.000Z" ∧
    (refParseString "2030-01-01T10:00:00Z").1 = (refParseString "2030-01-01T10:00:00.000Z").1 ∧
    (refParseString "2030-01-01T10:00:00Z").1.Before nowRef = false ∧
    (refParseString "2030-01-02T10:00:00Z").1.Before nowRef = false ∧
    (resourcePagerDutyScheduleOverrideRead (refEnv dropFromState)
        (fixedClient (.error "unused")
          (.ok [mkRecord "PO1" "2030-01-01T10:00:00.000Z" "2030-01-02T10:00:00Z"]) none) nowRef
        (mkResource "PO1" "2030-01-01T10:00:00Z" "2030-01-02T10:00:00Z")).1.start =
      "2030-01-01T10:00:00Z" := by
  decide

/-- C9 as amended: when the local window is in the future and the single matching remote record
has a `start` (respectively `end`) string that denotes the same instant as the local field, in
whatever representation, read leaves the local field unchanged. -/
theorem read_same_instant_unchanged (env : Env) (client : Client) (now : Time)
    (d : ResourceData) (ovs : List Override) (r : Override)
    (hlist : client.ListOverrides d.schedule { Since := d.start, Until := d.end_ } = .ok ovs)
    (hone : ovs.filter (fun o => o.ID == d.id) = [r])
    (hstart : (env.ParseString d.start).1.Before now = false)
    (hend : (env.ParseString d.end_).1.Before now = false) :
    ((env.ParseString d.start).1 = (env.ParseString r.Start).1 →
      (resourcePagerDutyScheduleOverrideRead env client now d).1.start = d.start) ∧
    ((env.ParseString d.end_).1 = (env.ParseString r.End).1 →
      (resourcePagerDutyScheduleOverrideRead env client now d).1.end_ = d.end_) := by
  rw [read_single env client now d ovs r hlist hone]
  simp only [hstart, hend]
  constructor
  · intro h; simp [h, Time.Equal]
  · intro h; simp [h, Time.Equal]

/-- Instance of the amended C9: the scenario of the specification. -/
theorem read_same_instant_unchanged_witness :
    (resourcePagerDutyScheduleOverrideRead (refEnv dropFromState)
        (fixedClient (.error "unused")
          (.ok [mkRecord "PO1" "2030-01-01T10:00:00.000Z" "2030-01-02T10:00:00Z"]) none) nowRef
        (mkResource "PO1" "2030-01-01T10:00:00Z" "2030-01-02T10:00:00Z")).1.start =
      "2030-01-01T10:00:00Z" :=
  (read_same_instant_unchanged (refEnv dropFromState)
    (fixedClient (.error "unused")
      (.ok [mkRecord "PO1" "2030-01-01T10:00:00.000Z" "2030-01-02T10:00:00Z"]) none) nowRef
    (mkResource "PO1" "2030-01-01T10:00:00Z" "2030-01-02T10:00:00Z")
    [mkRecord "PO1" "2030-01-01T10:00:00.000Z" "2030-01-02T10:00:00Z"]
    (mkRecord "PO1" "2030-01-01T10:00:00.000Z" "2030-01-02T10:00:00Z") rfl
    (by decide) (by decide) (by decide)).1 (by decide)

/-- C10: for a fixed current time and a fixed successful `ListOverrides` response with exactly
one record carrying the stored id, reading the state produced by a first read yields the same
state and the same success result as the first read. -/
theorem read_idempotent (env : Env) (client : Client) (now : Time) (d : ResourceData)
    (ovs : List Override) (r : Override)
    (hlist : ∀ sched opts, client.ListOverrides sched opts = .ok ovs)
    (hone : ovs.filter (fun o => o.ID == d.id) = [r]) :
    resourcePagerDutyScheduleOverrideRead env client now
        (resourcePagerDutyScheduleOverrideRead env client now d).1 =
      resourcePagerDutyScheduleOverrideRead env client now d ∧
    (resourcePagerDutyScheduleOverrideRead env client now d).2 = none := by
  have hrefl : ∀ t : Time, t.Equal t = true := by intro t; simp [Time.Equal]
  rw [read_single env client now d ovs r (hlist _ _) hone]
  by_cases hpast : ((env.ParseString d.end_).1.Before now ||
      (env.ParseString d.start).1.Before now) = true
  · rw [if_pos hpast]
    refine ⟨?_, rfl⟩
    rw [read_single env client now { d with user := r.User.ID } ovs r (hlist _ _) hone]
    simp only [hpast, if_true]
  · rw [if_neg hpast]
    refine ⟨?_, rfl⟩
    have hsecond : ∀ d1 : ResourceData, d1.id = d.id →
        resourcePagerDutyScheduleOverrideRead env client now d1 = _ :=
      fun d1 hid => read_single env client now d1 ovs r (hlist _ _) (by rw [hid]; exact hone)
    cases h1 : (env.ParseString d.start).1.Equal (env.ParseString r.Start).1 <;>
      cases h2 : (env.ParseString d.end_).1.Equal (env.ParseString r.End).1 <;>
      simp only [Bool.false_eq_true, if_false, if_true] <;>
      refine (hsecond _ ?_).trans ?_ <;>
      simp [h1, h2, hrefl, hpast]

/-- Instance of C10: a future window whose `start` and `end` both differ from the record. -/
theorem read_idempotent_witness :
    resourcePagerDutyScheduleOverrideRead (refEnv dropFromState)
        (fixedClient (.error "unused")
          (.ok [mkRecord "PO1" "2030-03-01T00:00:00Z" "2030-04-01T00:00:00Z"]) none) nowRef
        (resourcePagerDutyScheduleOverrideRead (refEnv dropFromState)
          (fixedClient (.error "unused")
            (.ok [mkRecord "PO1" "2030-03-01T00:00:00Z" "2030-04-01T00:00:00Z"]) none) nowRef
          (mkResource "PO1" "2030-01-01T00:00:00Z" "2030-02-01T00:00:00Z")).1 =
      resourcePagerDutyScheduleOverrideRead (refEnv dropFromState)
        (fixedClient (.error "unused")
          (.ok [mkRecord "PO1" "2030-03-01T00:00:00Z" "2030-04-01T00:00:00Z"]) none) nowRef
        (mkResource "PO1" "2030-01-01T00:00:00Z" "2030-02-01T00:00:00Z") ∧
    (resourcePagerDutyScheduleOverrideRead (refEnv dropFromState)
        (fixedClient (.error "unused")
          (.ok [mkRecord "PO1" "2030-03-01T00:00:00Z" "2030-04-01T00:00:00Z"]) none) nowRef
        (mkResource "PO1" "2030-01-01T00:00:00Z" "2030-02-01T00:00:00Z")).2 = none :=
  read_idempotent (refEnv dropFromState)
    (fixedClient (.error "unused")
      (.ok [mkRecord "PO1" "2030-03-01T00:00:00Z" "2030-04-01T00:00:00Z"]) none) nowRef
    (mkResource "PO1" "2030-01-01T00:00:00Z" "2030-02-01T00:00:00Z")
    [mkRecord "PO1" "2030-03-01T00:00:00Z" "2030-04-01T00:00:00Z"]
    (mkRecord "PO1" "2030-03-01T00:00:00Z" "2030-04-01T00:00:00Z")
    (fun _ _ => rfl) (by decide)

end Pagerduty
